import Mathlib

/-!
# Corrective-Action Intelligence Engine — verification development

Shallow embedding of `backend/app/ai/corrective_actions_ai.py`.

Modelling conventions:
* Python floats are modelled as exact rationals (`ℚ`).
* Calendar dates and datetimes are modelled as integer day numbers (`ℤ`);
  `date_a - date_b` in Python becomes integer subtraction, `timedelta(days=n)`
  addition becomes `+ n`.
* Python's `round(x, 1)` (round-half-to-even) is modelled exactly on `ℚ` by
  `pyround1`.
* Python dict lookups `d.get(k, default)` on the constant weight tables become
  total functions `String → Option ℚ` combined with `Option.getD`.
* A raw record (a Python dict) is modelled as a structure of `Option` fields;
  the `KeyError` raised by `item["id"]` when `id` is absent is modelled by
  `build_snapshots` returning `none`.
* `int x` (truncation toward zero) on the one positive quantity it is applied
  to, and `//` (Python floor division) on the nonnegative integers it is
  applied to, are modelled by `Int.floor` and integer division respectively;
  both agree with the Python semantics on the nonnegative values that occur.
-/

namespace ComplyCA

/-- `ActionSnapshot` dataclass: the engine's only input type. -/
structure ActionSnapshot where
  id : String
  title : String
  priority : String
  impact : String
  urgency : String
  status : String
  progress : ℚ
  due_date : Option ℤ
  completed_on : Option ℤ
  departments : List String
  last_updated : Option ℤ
  effectiveness_score : Option ℚ := none
  risk_score : Option ℚ := none
  open_issues : ℕ := 0
deriving Repr, DecidableEq

/-- `PRIORITY_WEIGHTS` table; `none` for keys not in the dict. -/
def PRIORITY_WEIGHTS : String → Option ℚ
  | "Critical" => some 1
  | "High" => some (85/100)
  | "Medium" => some (55/100)
  | "Low" => some (3/10)
  | _ => none

/-- `URGENCY_WEIGHTS` table; `none` for keys not in the dict. -/
def URGENCY_WEIGHTS : String → Option ℚ
  | "Critical" => some 1
  | "High" => some (8/10)
  | "Medium" => some (55/100)
  | "Low" => some (35/100)
  | _ => none

/-- `STATUS_PROGRESS_DEFAULTS` table; `none` for keys not in the dict. -/
def STATUS_PROGRESS_DEFAULTS : String → Option ℚ
  | "Open" => some (1/10)
  | "In Progress" => some (45/100)
  | "Completed" => some 1
  | "Closed" => some 1
  | "Cancelled" => some 0
  | _ => none

/-- `CONFIDENCE_THRESHOLDS = [0.65, 0.4]`. -/
def CONFIDENCE_THRESHOLDS : List ℚ := [65/100, 4/10]

/-- Python's `round` to an integer: round half to even (banker's rounding),
exact on `ℚ`. -/
def roundHalfEven (x : ℚ) : ℤ :=
  if x - ⌊x⌋ < 1/2 then ⌊x⌋
  else if 1/2 < x - ⌊x⌋ then ⌊x⌋ + 1
  else if ⌊x⌋ % 2 = 0 then ⌊x⌋ else ⌊x⌋ + 1

/-- Python's `round(x, 1)`: one decimal place, half to even. -/
def pyround1 (x : ℚ) : ℚ := (roundHalfEven (10 * x) : ℚ) / 10

/-- `CorrectiveActionAIEngine._normalize_progress`.  The Python parameter
`progress: float | None` is an `Option ℚ` here; snapshot callers pass
`some a.progress`. -/
def normalize_progress (progress : Option ℚ) (status : String) : ℚ :=
  match progress with
  | none => (STATUS_PROGRESS_DEFAULTS status).getD 0
  | some p =>
      if p ≤ 0 then (STATUS_PROGRESS_DEFAULTS status).getD 0
      else max 0 (min p 1)

/-- `CorrectiveActionAIEngine._overdue_days` (`reference_date` is the
constructor-supplied date, passed explicitly here). -/
def overdue_days (reference_date : ℤ) (a : ActionSnapshot) : ℤ :=
  match a.due_date with
  | none => 0
  | some d => max (reference_date - d) 0

/-- `CorrectiveActionAIEngine._confidence_for_score`. -/
def confidence_for_score (score : ℚ) : String :=
  if score ≥ CONFIDENCE_THRESHOLDS.get ⟨0, by decide⟩ then "High"
  else if score ≥ CONFIDENCE_THRESHOLDS.get ⟨1, by decide⟩ then "Medium"
  else "Low"

/-- One entry of the `effectiveness_scores` output list. -/
structure EffectivenessInsight where
  actionId : String
  title : String
  score : ℚ
  confidence : String
  drivers : List String
deriving Repr, DecidableEq

/-- `CorrectiveActionAIEngine._effectiveness_drivers`. -/
def effectiveness_drivers (a : ActionSnapshot) (progress : ℚ) (od : ℤ) :
    List String :=
  let drivers :=
    (if od ≠ 0 then ["Overdue by " ++ toString od ++ " day(s)"] else [])
    ++ (if progress ≥ 75/100 then ["Implementation momentum is strong"]
        else if progress ≤ 25/100 then ["Low execution progress"] else [])
    ++ (if a.open_issues ≠ 0 then
          [toString a.open_issues ++ " outstanding issue(s) reported"] else [])
  if drivers = [] then ["On-track performance with balanced progress"]
  else drivers

/-- Loop body of `CorrectiveActionAIEngine.effectiveness_scores`. -/
def effectiveness_insight (reference_date : ℤ) (a : ActionSnapshot) :
    EffectivenessInsight :=
  let progress := normalize_progress (some a.progress) a.status
  let od := overdue_days reference_date a
  let risk_signal :=
    match a.risk_score with
    | some r => r
    | none => (PRIORITY_WEIGHTS a.priority).getD (4/10)
  let baseline := 45/100 + 45/100 * progress
  let penalty :=
    (if od ≠ 0 then min ((od : ℚ) / 120) (25/100) else 0)
    + (if a.open_issues ≠ 0 then min ((a.open_issues : ℚ) * (5/100)) (2/10)
       else 0)
  let baseline :=
    if a.status = "Closed" ∨ a.status = "Cancelled" then baseline * (7/10)
    else baseline
  let score := max (22/100) (min (98/100)
    (baseline - penalty + 8/100 * (1 - risk_signal)))
  { actionId := a.id
    title := a.title
    score := pyround1 (score * 100)
    confidence := confidence_for_score score
    drivers := effectiveness_drivers a progress od }

/-- `CorrectiveActionAIEngine.effectiveness_scores`. -/
def effectiveness_scores (reference_date : ℤ) (actions : List ActionSnapshot) :
    List EffectivenessInsight :=
  actions.map (effectiveness_insight reference_date)

/-- One entry of the `rank_priorities` output list. -/
structure PriorityInsight where
  actionId : String
  title : String
  priorityScore : ℚ
  suggestedPriority : String
  riskImpact : String
  overdueDays : ℤ
deriving Repr, DecidableEq

/-- `CorrectiveActionAIEngine._priority_level_for_score`. -/
def priority_level_for_score (score : ℚ) : String :=
  if score ≥ 82/100 then "Critical"
  else if score ≥ 68/100 then "High"
  else if score ≥ 48/100 then "Medium"
  else "Low"

/-- Loop body of `CorrectiveActionAIEngine.rank_priorities` (the entry pushed
onto `ranked` before sorting).  Note the risk bonus uses
`(action.risk_score or 0.0)`: a missing `risk_score` contributes `0`. -/
def rank_entry (reference_date : ℤ) (a : ActionSnapshot) : PriorityInsight :=
  let progress := normalize_progress (some a.progress) a.status
  let od := overdue_days reference_date a
  let priority_component := (PRIORITY_WEIGHTS a.priority).getD (4/10)
  let impact_component := (PRIORITY_WEIGHTS a.impact).getD (4/10)
  let urgency_component := (URGENCY_WEIGHTS a.urgency).getD (45/100)
  let progress_gap := 1 - progress
  let overdue_penalty := min ((od : ℚ) / 60) (35/100)
  let score :=
    32/100 * priority_component
    + 28/100 * impact_component
    + 2/10 * urgency_component
    + 15/100 * progress_gap
    + 5/100 * overdue_penalty
  let score := max (2/10) (min 1 (score + (a.risk_score.getD 0) * (15/100)))
  { actionId := a.id
    title := a.title
    priorityScore := pyround1 (score * 100)
    suggestedPriority := priority_level_for_score score
    riskImpact := a.priority
    overdueDays := od }

/-- `CorrectiveActionAIEngine.rank_priorities`: build entries, then
`list.sort(key=priorityScore, reverse=True)` — a stable descending sort,
modelled by `List.mergeSort` with the reversed comparison. -/
def rank_priorities (reference_date : ℤ) (actions : List ActionSnapshot) :
    List PriorityInsight :=
  (actions.map (rank_entry reference_date)).mergeSort
    (fun x y => decide (y.priorityScore ≤ x.priorityScore))

/-- `CorrectiveActionAIEngine.recommend_resources` for a single action
(the `recommendations` list built by the loop body). -/
def resource_recommendations (reference_date : ℤ) (a : ActionSnapshot) :
    List String :=
  let od := overdue_days reference_date a
  let progress := normalize_progress (some a.progress) a.status
  let res :=
    (if od > 0 then ["Allocate surge support to recover overdue milestones"]
     else [])
    ++ (if progress < 4/10 then
          ["Assign a senior owner to accelerate execution pace"] else [])
    ++ (if (a.priority = "Critical" ∨ a.priority = "High")
           ∧ "Operations" ∈ a.departments then
          ["Dedicated operational excellence lead recommended"] else [])
  if res = [] then ["Current resourcing level is adequate; monitor weekly"]
  else res

/-- One entry of the `suggest_escalations` output list. -/
structure EscalationSuggestion where
  actionId : String
  title : String
  trigger : String
  escalationPath : List String
deriving Repr, DecidableEq

/-- Loop body of `CorrectiveActionAIEngine.suggest_escalations`: the tiered
decision table, evaluated top-to-bottom, first match wins. -/
def escalation_suggestion (reference_date : ℤ) (a : ActionSnapshot) :
    EscalationSuggestion :=
  let od := overdue_days reference_date a
  let progress := normalize_progress (some a.progress) a.status
  if od ≥ 14 ∨ a.priority = "Critical" then
    { actionId := a.id, title := a.title
      trigger := "High risk or extended overdue condition"
      escalationPath :=
        ["Action Owner", "Department Head", "Chief Compliance Officer"] }
  else if od ≥ 7 then
    { actionId := a.id, title := a.title
      trigger := "Moderate overdue condition"
      escalationPath := ["Action Owner", "Risk Manager"] }
  else if progress < 25/100 then
    { actionId := a.id, title := a.title
      trigger := "Insufficient implementation progress"
      escalationPath := ["Action Owner", "Program Management Office"] }
  else
    { actionId := a.id, title := a.title
      trigger := "Standard monitoring"
      escalationPath := ["Action Owner"] }

/-- `CorrectiveActionAIEngine.suggest_escalations`. -/
def suggest_escalations (reference_date : ℤ) (actions : List ActionSnapshot) :
    List EscalationSuggestion :=
  actions.map (escalation_suggestion reference_date)

/-- `CorrectiveActionAIEngine._predict_completion_date`.
`int(remaining * 30)` truncates toward zero; since `remaining ≥ 0.05` the
operand is positive, so truncation equals `Int.floor`.  Python's `// 2` is a
floor division of the (always positive) estimated day count, so plain integer
division agrees with it. -/
def predict_completion_date (a : ActionSnapshot) (progress : ℚ) : Option ℤ :=
  if (a.status = "Completed" ∨ a.status = "Closed") ∧ a.completed_on.isSome
  then a.completed_on
  else
    match a.due_date with
    | none => none
    | some d =>
        let remaining := max (5/100) (1 - progress)
        let estimated_days := ⌊remaining * 30⌋
        let estimated_days :=
          estimated_days
          + (if a.priority = "Critical" ∨ a.priority = "High" then 5 else 2)
        some (d + estimated_days / 2)

/-- The fields of `CorrectiveActionAIEngine.analyze_action`'s result that
carry computation (the four templated presentation strings of the Python
dict are plain threshold-selected text and are not modelled). -/
structure ActionAnalysis where
  effectivenessScore : ℚ
  successProbability : ℚ
  predictedCompletionDate : Option ℤ
  progressConfidence : ℚ
  riskAlerts : List String
  resourceRecommendations : List String
  escalationPath : List String
deriving Repr, DecidableEq

/-- `CorrectiveActionAIEngine.analyze_action`. -/
def analyze_action (reference_date : ℤ) (a : ActionSnapshot) : ActionAnalysis :=
  let progress := normalize_progress (some a.progress) a.status
  let od := overdue_days reference_date a
  let risk_signal :=
    match a.risk_score with
    | some r => r
    | none => (PRIORITY_WEIGHTS a.priority).getD (5/10)
  let trend_factor : ℚ :=
    match a.last_updated with
    | none => 0
    | some u =>
        let days_since_update := reference_date - u
        if days_since_update > 14 then -(8/100)
        else if days_since_update < 5 then 5/100
        else 0
  let success_probability := max (18/100) (min (97/100)
    (55/100 + 35/100 * progress - 25/100 * risk_signal
      - 2/100 * (od : ℚ) + trend_factor))
  let effectiveness_value := max (2/10) (min (95/100)
    (5/10 + 3/10 * progress - 15/100 * risk_signal))
  let progress_confidence := max (2/10) (min (92/100)
    (4/10 + 35/100 * progress - 1/10 * (od : ℚ) / 30))
  let predicted := predict_completion_date a progress
  let risk_alerts :=
    (if od > 0 then ["Action is overdue by " ++ toString od ++ " day(s)"]
     else [])
    ++ (if progress < 3/10 then ["Progress remains below 30% of plan"] else [])
    ++ (if (a.priority = "Critical" ∨ a.priority = "High")
           ∧ success_probability < 7/10 then
          ["Escalate for executive visibility"] else [])
  let risk_alerts :=
    if risk_alerts = [] then
      ["Risk profile acceptable with current trajectory"]
    else risk_alerts
  { effectivenessScore := pyround1 (effectiveness_value * 100)
    successProbability := pyround1 (success_probability * 100)
    predictedCompletionDate := predicted
    progressConfidence := pyround1 (progress_confidence * 100)
    riskAlerts := risk_alerts
    resourceRecommendations := resource_recommendations reference_date a
    escalationPath := (escalation_suggestion reference_date a).escalationPath }

/-- Payload of `generate_action_plan`: a Python dict read with `.get` and
string defaults, modelled as a structure of optional fields. -/
structure PlanRequest where
  actionTitle : Option String := none
  actionType : Option String := none
  urgency : Option String := none
  impact : Option String := none
  departments : List String := []
deriving Repr, DecidableEq

/-- `CorrectiveActionAIEngine._plan_success_probability`. -/
def plan_success_probability (urgency impact action_type : String) : ℚ :=
  let base : ℚ := 72/100
  let base := if urgency = "Critical" then base - 8/100 else base
  let base := if impact = "Critical" then base - 5/100 else base
  let base := if action_type = "Immediate Action" then base + 5/100 else base
  let base :=
    if action_type = "Long-term Corrective Action" then base - 4/100 else base
  max (35/100) (min (9/10) base)

/-- The computational fields of `generate_action_plan`'s result (step/
milestone/narrative/resource-plan text templates are presentation data and
are not modelled). -/
structure GeneratedPlan where
  overallDurationDays : ℤ
  targetCompletionDate : ℤ
  successProbability : ℚ
deriving Repr, DecidableEq

/-- `CorrectiveActionAIEngine.generate_action_plan` (computational fields). -/
def generate_action_plan (reference_date : ℤ) (payload : PlanRequest) :
    GeneratedPlan :=
  let action_type := payload.actionType.getD "Immediate Action"
  let urgency := payload.urgency.getD "Medium"
  let impact := payload.impact.getD "Medium"
  let baseline_duration : ℤ :=
    if action_type = "Long-term Corrective Action" then 45 else 28
  let baseline_duration :=
    if urgency = "Critical" ∨ urgency = "High" then baseline_duration - 10
    else baseline_duration
  let baseline_duration :=
    if impact = "Critical" ∨ impact = "High" then baseline_duration + 5
    else baseline_duration
  let baseline_duration := max 21 baseline_duration
  let start_date := reference_date + 1
  let target_completion := start_date + baseline_duration
  { overallDurationDays := baseline_duration
    targetCompletionDate := target_completion
    successProbability :=
      pyround1 (plan_success_probability urgency impact action_type * 100) }

/-- The optional `ai_metadata` nested dict of a raw record. -/
structure RawMetadata where
  effectiveness_score : Option ℚ := none
  risk_score : Option ℚ := none
deriving Repr, DecidableEq

/-- A raw corrective-action record (a Python dict read with `.get`),
modelled as a structure of optional fields. -/
structure RawAction where
  id : Option String := none
  title : Option String := none
  priority : Option String := none
  impact : Option String := none
  urgency : Option String := none
  status : Option String := none
  progress : Option ℚ := none
  due_date : Option ℤ := none
  completed_on : Option ℤ := none
  departments : Option (List String) := none
  last_updated : Option ℤ := none
  ai_metadata : Option RawMetadata := none
  open_issues : Option (List String) := none
deriving Repr, DecidableEq

/-- Loop body of `build_snapshots`: `item["id"]` raises `KeyError` when the
field is absent, modelled as `none`.  `(item.get("progress", 0) or 0)` maps
both a missing and a zero (falsy) progress to `0`. -/
def build_snapshot (item : RawAction) : Option ActionSnapshot :=
  match item.id with
  | none => none
  | some i =>
      some
        { id := i
          title := item.title.getD ""
          priority := item.priority.getD "Medium"
          impact := item.impact.getD (item.priority.getD "Medium")
          urgency := item.urgency.getD "Medium"
          status := item.status.getD "Open"
          progress :=
            (match item.progress with
             | none => (0 : ℚ)
             | some p => if p = 0 then 0 else p) / 100
          due_date := item.due_date
          completed_on := item.completed_on
          departments := item.departments.getD []
          last_updated := item.last_updated
          effectiveness_score := (item.ai_metadata.getD {}).effectiveness_score
          risk_score := (item.ai_metadata.getD {}).risk_score
          open_issues := (item.open_issues.getD []).length }

/-- `build_snapshots`: the `KeyError` from any record aborts the whole
construction. -/
def build_snapshots (raw_actions : List RawAction) :
    Option (List ActionSnapshot) :=
  raw_actions.mapM build_snapshot

/-! ## Helper lemmas about the rounding and floor primitives -/

theorem int_le_roundHalfEven {n : ℤ} {x : ℚ} (h : (n : ℚ) ≤ x) :
    n ≤ roundHalfEven x := by
  have h1 : n ≤ ⌊x⌋ := Int.le_floor.mpr h
  unfold roundHalfEven
  split_ifs <;> omega

theorem roundHalfEven_le_int {n : ℤ} {x : ℚ} (h : x ≤ (n : ℚ)) :
    roundHalfEven x ≤ n := by
  have h1 : ⌊x⌋ ≤ n := by
    have h2 := Int.floor_le_floor h
    simpa using h2
  have h3 : ¬ (x - ⌊x⌋ < 1/2) → ⌊x⌋ < n := by
    intro hf
    rcases lt_or_eq_of_le h1 with h2 | h2
    · exact h2
    · exfalso
      apply hf
      rw [h2]
      have h4 : x - (n : ℚ) ≤ 0 := by linarith
      linarith
  unfold roundHalfEven
  split_ifs with hf hg he
  · exact h1
  · have := h3 hf; omega
  · exact h1
  · have := h3 hf; omega

theorem le_pyround1 {n : ℤ} {x : ℚ} (h : (n : ℚ) ≤ 10 * x) :
    (n : ℚ) / 10 ≤ pyround1 x := by
  unfold pyround1
  have h1 := int_le_roundHalfEven h
  have h2 : (n : ℚ) ≤ (roundHalfEven (10 * x) : ℚ) := by exact_mod_cast h1
  linarith

theorem pyround1_le {n : ℤ} {x : ℚ} (h : 10 * x ≤ (n : ℚ)) :
    pyround1 x ≤ (n : ℚ) / 10 := by
  unfold pyround1
  have h1 := roundHalfEven_le_int h
  have h2 : (roundHalfEven (10 * x) : ℚ) ≤ (n : ℚ) := by exact_mod_cast h1
  linarith

theorem roundHalfEven_intCast (m : ℤ) : roundHalfEven ((m : ℚ)) = m := by
  rw [roundHalfEven, Int.floor_intCast]
  norm_num

theorem roundHalfEven_add_half (m : ℤ) :
    roundHalfEven ((m : ℚ) + 1/2) = if m % 2 = 0 then m else m + 1 := by
  have hfloor : ⌊(m : ℚ) + 1/2⌋ = m := by
    rw [Int.floor_eq_iff]
    constructor
    · linarith
    · linarith
  rw [roundHalfEven, hfloor]
  norm_num

theorem pyround1_eq_intCast_div_ten {x : ℚ} {m : ℤ} (h : 10 * x = (m : ℚ)) :
    pyround1 x = (m : ℚ) / 10 := by
  rw [pyround1, h, roundHalfEven_intCast]

theorem pyround1_eq_tie_odd {x : ℚ} {m : ℤ} (h : 10 * x = (m : ℚ) + 1/2)
    (hm : m % 2 = 1) : pyround1 x = ((m : ℚ) + 1) / 10 := by
  rw [pyround1, h, roundHalfEven_add_half, if_neg (by omega)]
  push_cast
  ring

theorem floor_div_two (y : ℚ) : ⌊y / 2⌋ = ⌊y⌋ / 2 := by
  have h1 : ⌊y / 2⌋ = ⌊((⌊y⌋ : ℚ)) / 2⌋ := by
    apply le_antisymm
    · rw [Int.le_floor]
      have h2 : ((⌊y / 2⌋ : ℤ) : ℚ) ≤ y / 2 := Int.floor_le (y / 2)
      have h3 : (2 * ⌊y / 2⌋ : ℤ) ≤ ⌊y⌋ := by
        rw [Int.le_floor]
        push_cast
        linarith
      have h4 : ((2 * ⌊y / 2⌋ : ℤ) : ℚ) ≤ ((⌊y⌋ : ℤ) : ℚ) := by exact_mod_cast h3
      push_cast at h4
      linarith
    · rw [Int.le_floor]
      have h5 : ((⌊((⌊y⌋ : ℚ)) / 2⌋ : ℤ) : ℚ) ≤ (⌊y⌋ : ℚ) / 2 :=
        Int.floor_le _
      have h6 : ((⌊y⌋ : ℤ) : ℚ) ≤ y := Int.floor_le y
      linarith
  rw [h1]
  have h7 := Rat.floor_intCast_div_natCast ⌊y⌋ 2
  simpa using h7

/-! ## Spec-side formulas

These definitions follow the wording of the specification (and, where a claim
had to be amended, the amended wording); the theorems below compare them with
the source-side definitions above. -/

/-- Spec §4.3 effectiveness formula:
`baseline = 0.45 + 0.45*progress`, damped by `0.7` for Closed/Cancelled,
`penalty = min(overdue_days/120, 0.25) + min(open_issues*0.05, 0.2)`,
`score = clamp(baseline - penalty + 0.08*(1 - risk_signal), 0.22, 0.98)`,
`risk_signal` = snapshot risk score or `PRIORITY_WEIGHTS[priority]`
(default 0.4). -/
def effectiveness_specFormula (reference_date : ℤ) (a : ActionSnapshot) : ℚ :=
  let progress := normalize_progress (some a.progress) a.status
  let od := overdue_days reference_date a
  let risk_signal :=
    match a.risk_score with
    | some r => r
    | none => (PRIORITY_WEIGHTS a.priority).getD (4/10)
  let baseline := 45/100 + 45/100 * progress
  let baseline :=
    if a.status = "Closed" ∨ a.status = "Cancelled" then baseline * (7/10)
    else baseline
  let penalty :=
    min ((od : ℚ) / 120) (25/100)
    + min ((a.open_issues : ℚ) * (5/100)) (2/10)
  max (22/100) (min (98/100) (baseline - penalty + 8/100 * (1 - risk_signal)))

/-- Success-probability formula of (amended) claim C4:
`clamp(0.55 + 0.35*progress - 0.25*risk_signal - 0.02*overdue_days +
trend_factor, 0.18, 0.97)`, with `risk_signal` the snapshot risk score or
`PRIORITY_WEIGHTS[priority]` with default 0.5, and `trend_factor` +0.05 when
the last update is under 5 days old, -0.08 when over 14 days old, else 0. -/
def success_probability_specFormula (reference_date : ℤ) (a : ActionSnapshot) :
    ℚ :=
  let progress := normalize_progress (some a.progress) a.status
  let od := overdue_days reference_date a
  let risk_signal :=
    match a.risk_score with
    | some r => r
    | none => (PRIORITY_WEIGHTS a.priority).getD (5/10)
  let trend_factor : ℚ :=
    match a.last_updated with
    | none => 0
    | some u =>
        if reference_date - u < 5 then 5/100
        else if 14 < reference_date - u then -(8/100)
        else 0
  max (18/100) (min (97/100)
    (55/100 + 35/100 * progress - 25/100 * risk_signal
      - 2/100 * (od : ℚ) + trend_factor))

/-- Spec §4.7 predicted-completion-date rule: completion date verbatim for a
completed/closed action that has one; null without a due date; otherwise
`due_date + floor((max(0.05, 1-progress)*30 + (5 if priority High/Critical
else 2)) / 2)` days. -/
def predicted_completion_specFormula (a : ActionSnapshot) : Option ℤ :=
  let progress := normalize_progress (some a.progress) a.status
  if (a.status = "Completed" ∨ a.status = "Closed") ∧ a.completed_on.isSome
  then a.completed_on
  else
    match a.due_date with
    | none => none
    | some d =>
        some (d + ⌊(max (5/100) (1 - progress) * 30
          + (if a.priority = "High" ∨ a.priority = "Critical"
             then (5 : ℚ) else 2)) / 2⌋)

/-- Plan-level success probability per the spec: base 0.72 with additive
adjustments for urgency/impact/type, clamped to [0.35, 0.9]. -/
def plan_success_probability_specFormula
    (urgency impact action_type : String) : ℚ :=
  max (35/100) (min (9/10) (72/100
    + (if urgency = "Critical" then -(8/100) else 0)
    + (if impact = "Critical" then -(5/100) else 0)
    + (if action_type = "Immediate Action" then 5/100 else 0)
    + (if action_type = "Long-term Corrective Action" then -(4/100) else 0)))

/-! ## Concrete snapshots used as witnesses and counterexamples -/

/-- A minimal Medium/Open snapshot with no risk score. -/
def sampleAction : ActionSnapshot :=
  { id := "CA-1", title := "Sample", priority := "Medium", impact := "Medium"
    urgency := "Medium", status := "Open", progress := 0
    due_date := none, completed_on := none, departments := []
    last_updated := none }

/-- A snapshot whose priority string is not a key of the weight tables. -/
def unknownPriorityAction : ActionSnapshot :=
  { id := "CA-2", title := "Odd", priority := "Unknown", impact := "Medium"
    urgency := "Medium", status := "Open", progress := 0
    due_date := none, completed_on := none, departments := []
    last_updated := none }

/-- A raw record carrying only an `id`, and the snapshot it builds to. -/
def onlyIdRecord : RawAction := { id := some "CA-1" }

/-- The snapshot produced from `onlyIdRecord`. -/
def onlyIdSnapshot : ActionSnapshot :=
  { id := "CA-1", title := "", priority := "Medium", impact := "Medium"
    urgency := "Medium", status := "Open", progress := 0
    due_date := none, completed_on := none, departments := []
    last_updated := none, effectiveness_score := none, risk_score := none
    open_issues := 0 }

/-- A raw record with an `id` and a priority but no impact, and the snapshot
it builds to. -/
def inheritSample : RawAction := { id := some "CA-3", priority := some "High" }

/-- The snapshot produced from `inheritSample`. -/
def inheritSnapshot : ActionSnapshot :=
  { id := "CA-3", title := "", priority := "High", impact := "High"
    urgency := "Medium", status := "Open", progress := 0
    due_date := none, completed_on := none, departments := []
    last_updated := none, effectiveness_score := none, risk_score := none
    open_issues := 0 }

/-- A `build_snapshot` failure on any list member aborts the whole
`build_snapshots` construction. -/
theorem build_snapshots_eq_none_of_mem {raw : List RawAction}
    {item : RawAction} (hmem : item ∈ raw) (h : build_snapshot item = none) :
    build_snapshots raw = none := by
  induction raw with
  | nil => cases hmem
  | cons a t ih =>
      rcases List.mem_cons.mp hmem with rfl | hmem2
      · rw [build_snapshots, List.mapM_cons, h]
        rfl
      · have ht : build_snapshots t = none := ih hmem2
        rw [build_snapshots] at ht ⊢
        rw [List.mapM_cons]
        simp only [ht]
        cases build_snapshot a <;> rfl

/-- C7: `build_snapshots` fails (models the `KeyError`) whenever any raw
record lacks an `id`, and a record carrying only an `id` builds to a snapshot
with priority "Medium", status "Open", progress 0, no departments and zero
open issues. -/
theorem build_snapshots_requires_id (raw : List RawAction) (item : RawAction)
    (hmem : item ∈ raw) (hid : item.id = none) :
    build_snapshots raw = none ∧
    build_snapshots [onlyIdRecord] = some [onlyIdSnapshot] := by
  constructor
  · exact build_snapshots_eq_none_of_mem hmem (by rw [build_snapshot, hid])
  · rw [build_snapshots, List.mapM_cons, List.mapM_nil]
    simp [build_snapshot, onlyIdRecord, onlyIdSnapshot]

/-- Witness for C7 at the empty raw record. -/
theorem build_snapshots_requires_id_witness :
    build_snapshots [({} : RawAction)] = none ∧
    build_snapshots [onlyIdRecord] = some [onlyIdSnapshot] :=
  build_snapshots_requires_id [{}] {} (by simp) rfl

/-- C10: when a raw record omits `impact`, the built snapshot inherits the
record's `priority` as its impact, falling back to "Medium" only when the
priority is also absent. -/
theorem build_snapshot_impact_inherits (item : RawAction) (s : ActionSnapshot)
    (himp : item.impact = none) (hs : build_snapshot item = some s) :
    s.impact = item.priority.getD "Medium" ∧
    (∀ p, item.priority = some p → s.impact = p) ∧
    (item.priority = none → s.impact = "Medium") := by
  rcases hid : item.id with _ | i
  · rw [build_snapshot, hid] at hs
    cases hs
  · rw [build_snapshot, hid] at hs
    have hrec := Option.some.inj hs
    have himpact : s.impact = item.impact.getD (item.priority.getD "Medium") := by
      rw [← hrec]
    rw [himp] at himpact
    refine ⟨himpact, ?_, ?_⟩
    · intro p hp
      rw [himpact, hp]
      rfl
    · intro hp
      rw [himpact, hp]
      rfl

/-- Witness for C10: priority "High" is inherited as the impact. -/
theorem build_snapshot_impact_inherits_witness :
    inheritSnapshot.impact = inheritSample.priority.getD "Medium" :=
  (build_snapshot_impact_inherits inheritSample inheritSnapshot rfl
    (by simp [build_snapshot, inheritSample, inheritSnapshot])).1

/-- Counterexample to C3 as stated: a numeric progress of `0` is supplied,
yet the scorers use the `STATUS_PROGRESS_DEFAULTS` entry (0.45 for
"In Progress") instead of the clamped numeric value `0`. -/
theorem normalize_progress_zero_uses_table :
    normalize_progress (some 0) "In Progress" = 45/100 ∧
    max (0 : ℚ) (min 0 1) = 0 ∧ (45/100 : ℚ) ≠ 0 := by
  refine ⟨by norm_num [normalize_progress, STATUS_PROGRESS_DEFAULTS], ?_, ?_⟩
  · norm_num
  · norm_num

/-- C3 (amended): a supplied *positive* numeric progress is clamped to [0,1];
the `STATUS_PROGRESS_DEFAULTS` table is consulted when the supplied progress
is absent or non-positive. -/
theorem normalize_progress_spec (p : ℚ) (status : String) :
    (0 < p → normalize_progress (some p) status = max 0 (min p 1)) ∧
    (p ≤ 0 →
      normalize_progress (some p) status
        = (STATUS_PROGRESS_DEFAULTS status).getD 0) ∧
    normalize_progress none status = (STATUS_PROGRESS_DEFAULTS status).getD 0 := by
  refine ⟨?_, ?_, rfl⟩
  · intro hp
    rw [normalize_progress]
    rw [if_neg (by linarith)]
  · intro hp
    rw [normalize_progress]
    rw [if_pos hp]

/-- Witness for C3 at progress 1/2 and status "Open". -/
theorem normalize_progress_spec_witness :
    normalize_progress (some (1/2)) "Open" = max 0 (min (1/2) 1) :=
  (normalize_progress_spec (1/2) "Open").1 (by norm_num)

/-- Counterexample to C1 as stated: on the default payload the returned
`successProbability` is the percentage 77.0, not the 0-1 fraction 0.77
produced by the base-0.72 adjustment formula. -/
theorem generate_action_plan_percent_cex :
    (generate_action_plan 0 {}).successProbability = 77 ∧
    plan_success_probability "Medium" "Medium" "Immediate Action" = 77/100 ∧
    (77 : ℚ) ≠ 77/100 := by
  have h1 : plan_success_probability "Medium" "Medium" "Immediate Action"
      = 77/100 := by
    rw [plan_success_probability]
    simp
    norm_num [min_def, max_def]
  refine ⟨?_, h1, by norm_num⟩
  rw [generate_action_plan]
  simp [h1]
  rw [pyround1]
  have hg : (10 : ℚ) * 77 = ((770 : ℤ) : ℚ) := by norm_num
  rw [hg, roundHalfEven_intCast]
  norm_num

/-- C1 (amended): `generate_action_plan` returns `successProbability` as a
percentage — 100 times the clamped base-0.72 fraction, rounded to one
decimal — and therefore always within [35.0, 90.0]. -/
theorem generate_action_plan_successProbability (reference_date : ℤ)
    (payload : PlanRequest) :
    (generate_action_plan reference_date payload).successProbability
      = pyround1 (100 * plan_success_probability_specFormula
          (payload.urgency.getD "Medium") (payload.impact.getD "Medium")
          (payload.actionType.getD "Immediate Action")) ∧
    35 ≤ (generate_action_plan reference_date payload).successProbability ∧
    (generate_action_plan reference_date payload).successProbability ≤ 90 := by
  have hform : ∀ u i t, plan_success_probability u i t
      = plan_success_probability_specFormula u i t := by
    intro u i t
    rw [plan_success_probability, plan_success_probability_specFormula]
    split_ifs <;> norm_num
  have hlo : ∀ u i t, 35/100 ≤ plan_success_probability_specFormula u i t := by
    intro u i t
    rw [plan_success_probability_specFormula]
    exact le_max_left _ _
  have hhi : ∀ u i t, plan_success_probability_specFormula u i t ≤ 9/10 := by
    intro u i t
    rw [plan_success_probability_specFormula]
    exact max_le (by norm_num) (min_le_left _ _)
  have heq : (generate_action_plan reference_date payload).successProbability
      = pyround1 (100 * plan_success_probability_specFormula
          (payload.urgency.getD "Medium") (payload.impact.getD "Medium")
          (payload.actionType.getD "Immediate Action")) := by
    rw [generate_action_plan, hform]
    ring_nf
  refine ⟨heq, ?_, ?_⟩
  · rw [heq]
    have h1 := hlo (payload.urgency.getD "Medium") (payload.impact.getD "Medium")
      (payload.actionType.getD "Immediate Action")
    have h2 : ((350 : ℤ) : ℚ) ≤ 10 * (100 * plan_success_probability_specFormula
        (payload.urgency.getD "Medium") (payload.impact.getD "Medium")
        (payload.actionType.getD "Immediate Action")) := by
      push_cast
      linarith
    have := le_pyround1 h2
    norm_num at this
    linarith
  · rw [heq]
    have h1 := hhi (payload.urgency.getD "Medium") (payload.impact.getD "Medium")
      (payload.actionType.getD "Immediate Action")
    have h2 : 10 * (100 * plan_success_probability_specFormula
        (payload.urgency.getD "Medium") (payload.impact.getD "Medium")
        (payload.actionType.getD "Immediate Action")) ≤ ((900 : ℤ) : ℚ) := by
      push_cast
      linarith
    have := pyround1_le h2
    norm_num at this
    linarith

/-- Counterexample to C2 as stated: for a Medium-priority snapshot with no
`risk_score`, `rank_priorities` produces exactly the output it would produce
for `risk_score = 0` (57.5), and not the output it would produce had the risk
been synthesized from the priority weight table (65.8). -/
theorem rank_priorities_missing_risk_cex :
    rank_priorities 0 [sampleAction]
      = rank_priorities 0 [{ sampleAction with risk_score := some 0 }] ∧
    rank_priorities 0 [sampleAction]
      ≠ rank_priorities 0 [{ sampleAction with risk_score := some ((PRIORITY_WEIGHTS sampleAction.priority).getD (4/10)) }] := by
  have h2 : (rank_entry 0 sampleAction).priorityScore = 115/2 := by
    rw [rank_entry]
    norm_num [sampleAction, normalize_progress, overdue_days,
      STATUS_PROGRESS_DEFAULTS, PRIORITY_WEIGHTS, URGENCY_WEIGHTS,
      inf_eq_min, sup_eq_max, min_def, max_def]
    rw [pyround1_eq_intCast_div_ten (m := 575) (by norm_num)]
    norm_num
  have h3 : (rank_entry 0 { sampleAction with risk_score := some ((PRIORITY_WEIGHTS sampleAction.priority).getD (4/10)) }).priorityScore = 329/5 := by
    rw [rank_entry]
    norm_num [sampleAction, normalize_progress, overdue_days,
      STATUS_PROGRESS_DEFAULTS, PRIORITY_WEIGHTS, URGENCY_WEIGHTS,
      inf_eq_min, sup_eq_max, min_def, max_def]
    rw [pyround1_eq_tie_odd (m := 657) (by norm_num) (by norm_num)]
    norm_num
  constructor
  · rw [rank_priorities, rank_priorities]
    simp only [List.map_cons, List.map_nil, List.mergeSort_singleton]
    have hentry : rank_entry 0 sampleAction
        = rank_entry 0 { sampleAction with risk_score := some 0 } := rfl
    rw [hentry]
  · intro hcontra
    rw [rank_priorities, rank_priorities] at hcontra
    simp only [List.map_cons, List.map_nil, List.mergeSort_singleton] at hcontra
    have hxy := List.head_eq_of_cons_eq hcontra
    have := congrArg PriorityInsight.priorityScore hxy
    rw [h2, h3] at this
    norm_num at this

/-- C2 (amended): when `risk_score` is absent, `effectiveness_scores` and
`analyze_action` synthesize the risk signal from the priority weight table
(defaults 0.4 and 0.5 respectively), while `rank_priorities` substitutes 0
for the missing risk score in its risk bonus. -/
theorem missing_risk_fallbacks (reference_date : ℤ) (a : ActionSnapshot)
    (h : a.risk_score = none) :
    effectiveness_insight reference_date a
      = effectiveness_insight reference_date
          { a with risk_score := some ((PRIORITY_WEIGHTS a.priority).getD (4/10)) } ∧
    analyze_action reference_date a
      = analyze_action reference_date
          { a with risk_score := some ((PRIORITY_WEIGHTS a.priority).getD (5/10)) } ∧
    rank_entry reference_date a
      = rank_entry reference_date { a with risk_score := some 0 } := by
  obtain ⟨i, t, pr, im, ur, st, pg, dd, co, dp, lu, es, rs, oi⟩ := a
  cases h
  exact ⟨rfl, rfl, rfl⟩

/-- Witness for C2 at the sample Medium snapshot (which has no risk score). -/
theorem missing_risk_fallbacks_witness :
    rank_entry 0 sampleAction
      = rank_entry 0 { sampleAction with risk_score := some 0 } :=
  (missing_risk_fallbacks 0 sampleAction rfl).2.2

/-- The escalation path of `escalation_suggestion`, written as a bare decision
table. -/
theorem escalation_suggestion_path (reference_date : ℤ) (a : ActionSnapshot) :
    (escalation_suggestion reference_date a).escalationPath
      = (if overdue_days reference_date a ≥ 14 ∨ a.priority = "Critical" then
          ["Action Owner", "Department Head", "Chief Compliance Officer"]
        else if overdue_days reference_date a ≥ 7 then
          ["Action Owner", "Risk Manager"]
        else if normalize_progress (some a.progress) a.status < 25/100 then
          ["Action Owner", "Program Management Office"]
        else ["Action Owner"]) := by
  rw [escalation_suggestion]
  split_ifs <;> rfl

/-- Counterexample to C9 as stated: for a Medium-priority snapshot with low
progress (normalized progress 0.1 < 0.25) and overdue by 6 days, the
escalation path has 2 roles (Owner + PMO), not the single role the claim
requires at the first step of the 6→8→15 progression. -/
theorem suggest_escalations_low_progress_cex :
    (escalation_suggestion 0
        { sampleAction with due_date := some (-6) }).escalationPath
      = ["Action Owner", "Program Management Office"] ∧
    (2 : ℕ) ≠ 1 := by
  constructor
  · rw [escalation_suggestion_path]
    have h6 : overdue_days 0 ({ sampleAction with due_date := some (-6) } :
        ActionSnapshot) = 6 := by
      show max (0 - (-6 : ℤ)) 0 = 6
      norm_num
    have hnp : normalize_progress
        (some ({ sampleAction with due_date := some (-6) } :
          ActionSnapshot).progress)
        ({ sampleAction with due_date := some (-6) } : ActionSnapshot).status
        = 1/10 := by
      show normalize_progress (some 0) "Open" = 1/10
      rw [normalize_progress]
      norm_num [STATUS_PROGRESS_DEFAULTS]
    rw [h6]
    rw [if_neg, if_neg, if_pos]
    · rw [hnp]
      norm_num
    · norm_num
    · show ¬((6:ℤ) ≥ 14 ∨ ({ sampleAction with due_date := some (-6) } :
        ActionSnapshot).priority = "Critical")
      simp [sampleAction]
  · norm_num

/-- C9 (amended): for a Medium-priority snapshot whose normalized progress is
at least 0.25, raising the overdue days through 6, 8 and 15 (with all other
fields held fixed) yields escalation paths of non-decreasing lengths 1, 2
and 3, by the decision table evaluated top-to-bottom with first match
winning. -/
theorem suggest_escalations_tiers (reference_date : ℤ) (a : ActionSnapshot)
    (hp : a.priority = "Medium")
    (hprog : 25/100 ≤ normalize_progress (some a.progress) a.status) :
    (escalation_suggestion reference_date
        { a with due_date := some (reference_date - 6) }).escalationPath.length
      = 1 ∧
    (escalation_suggestion reference_date
        { a with due_date := some (reference_date - 8) }).escalationPath.length
      = 2 ∧
    (escalation_suggestion reference_date
        { a with due_date := some (reference_date - 15) }).escalationPath.length
      = 3 := by
  have hod : ∀ k : ℤ, 0 ≤ k → overdue_days reference_date
      { a with due_date := some (reference_date - k) } = k := by
    intro k hk
    show max (reference_date - (reference_date - k)) 0 = k
    rw [sub_sub_cancel]
    exact max_eq_left hk
  have hpr : ∀ k : ℤ, ({ a with due_date := some (reference_date - k) } :
      ActionSnapshot).priority = "Medium" := fun k => hp
  refine ⟨?_, ?_, ?_⟩
  · rw [escalation_suggestion_path]
    rw [if_neg, if_neg, if_neg]
    · rfl
    · exact not_lt.mpr hprog
    · rw [hod 6 (by norm_num)]
      norm_num
    · rw [hod 6 (by norm_num), hpr 6]
      simp
  · rw [escalation_suggestion_path]
    rw [if_neg, if_pos]
    · rfl
    · rw [hod 8 (by norm_num)]
      norm_num
    · rw [hod 8 (by norm_num), hpr 8]
      simp
  · rw [escalation_suggestion_path]
    rw [if_pos]
    · rfl
    · rw [hod 15 (by norm_num)]
      norm_num

/-- Witness for C9 at a Medium/Open snapshot with progress 0.3. -/
theorem suggest_escalations_tiers_witness :
    (escalation_suggestion 0
        { sampleAction with progress := 3/10, due_date := some (0 - 6) }).escalationPath.length
      = 1 :=
  (suggest_escalations_tiers 0 { sampleAction with progress := 3/10 } rfl
    (by norm_num [sampleAction, normalize_progress,
      STATUS_PROGRESS_DEFAULTS])).1

/-- Counterexample to C4 as stated: for a snapshot whose priority is not in
the weight table, `analyze_action` uses the fallback 0.5 (yielding 46.0), not
the 0.4 the claim states (which would yield 48.5). -/
theorem analyze_action_unknown_priority_cex :
    (analyze_action 0 unknownPriorityAction).successProbability = 46 ∧
    pyround1 (100 * max (18/100) (min (97/100)
      (55/100 + 35/100 * (1/10) - 25/100 * (4/10) - 2/100 * 0 + 0))) = 97/2 ∧
    (46 : ℚ) ≠ 97/2 := by
  have hw : PRIORITY_WEIGHTS "Unknown" = none := rfl
  refine ⟨?_, ?_, by norm_num⟩
  · norm_num [analyze_action, unknownPriorityAction, normalize_progress,
      overdue_days, STATUS_PROGRESS_DEFAULTS, hw,
      inf_eq_min, sup_eq_max, min_def, max_def]
    rw [pyround1_eq_intCast_div_ten (m := 460) (by norm_num)]
    norm_num
  · norm_num [inf_eq_min, sup_eq_max, min_def, max_def]
    rw [pyround1_eq_intCast_div_ten (m := 485) (by norm_num)]
    norm_num

/-- C4 (amended): `analyze_action` returns `successProbability` as the
percentage of `clamp(0.55 + 0.35*progress - 0.25*risk_signal -
0.02*overdue_days + trend_factor, 0.18, 0.97)`, where `risk_signal` is the
snapshot's risk score or `PRIORITY_WEIGHTS[priority]` with default 0.5 for
unknown priorities, and `trend_factor` is +0.05 when the last update is under
5 days old, -0.08 when over 14 days old, else 0. -/
theorem analyze_action_success_probability (reference_date : ℤ)
    (a : ActionSnapshot) :
    (analyze_action reference_date a).successProbability
      = pyround1 (100 * success_probability_specFormula reference_date a) := by
  obtain ⟨i, t, pr, im, ur, st, pg, dd, co, dp, lu, es, rs, oi⟩ := a
  rcases lu with _ | u
  · simp only [analyze_action, success_probability_specFormula]
    ring_nf
  · simp only [analyze_action, success_probability_specFormula]
    by_cases h5 : reference_date - u < 5
    · have h14 : ¬ (reference_date - u > 14) := by omega
      simp only [if_pos h5, if_neg h14]
      ring_nf
    · by_cases h14 : reference_date - u > 14
      · simp only [if_pos h14, if_neg h5]
        ring_nf
      · simp only [if_neg h14, if_neg h5]
        ring_nf

/-- C8: `analyze_action` predicts the completion date exactly as the spec
states: the completion date verbatim for a Completed/Closed action that has
one; null without a due date; otherwise
`due_date + floor((max(0.05, 1-progress)*30 + (5 if priority High/Critical
else 2)) / 2)` days. -/
theorem analyze_action_predicted_completion (reference_date : ℤ)
    (a : ActionSnapshot) :
    (analyze_action reference_date a).predictedCompletionDate
      = predicted_completion_specFormula a := by
  have hkey : ∀ (x : ℚ) (b : ℤ), ⌊(x + (b : ℚ)) / 2⌋ = (⌊x⌋ + b) / 2 := by
    intro x b
    rw [floor_div_two, Int.floor_add_int]
  have hk5 : ∀ x : ℚ, ⌊(x + 5) / 2⌋ = (⌊x⌋ + 5) / 2 := by
    intro x
    rw [show (5:ℚ) = ((5:ℤ):ℚ) by norm_num, hkey]
  have hk2 : ∀ x : ℚ, ⌊(x + 2) / 2⌋ = (⌊x⌋ + 2) / 2 := by
    intro x
    nth_rewrite 1 [show (2:ℚ) = ((2:ℤ):ℚ) by norm_num]
    rw [hkey]
  obtain ⟨i, t, pr, im, ur, st, pg, dd, co, dp, lu, es, rs, oi⟩ := a
  rcases dd with _ | d
  · simp only [analyze_action, predict_completion_date,
      predicted_completion_specFormula]
  · simp only [analyze_action, predict_completion_date,
      predicted_completion_specFormula]
    split_ifs with h1 h2 h3 h4
    · rfl
    · rw [hk5]
    · exact absurd (Or.symm h2) h3
    · exact absurd (Or.symm h4) h2
    · rw [hk2]

/-- The guarded penalty terms of `effectiveness_insight` coincide with the
spec's unguarded `min` penalties, so the computed score and confidence match
the spec formula. -/
theorem effectiveness_insight_eq_spec (reference_date : ℤ)
    (a : ActionSnapshot) :
    (effectiveness_insight reference_date a).score
      = pyround1 (effectiveness_specFormula reference_date a * 100) ∧
    (effectiveness_insight reference_date a).confidence
      = confidence_for_score (effectiveness_specFormula reference_date a) := by
  have h1 : (if overdue_days reference_date a ≠ 0 then
      min (((overdue_days reference_date a) : ℚ) / 120) (25/100) else 0)
      = min (((overdue_days reference_date a) : ℚ) / 120) (25/100) := by
    by_cases h : overdue_days reference_date a = 0
    · rw [if_neg (not_not.mpr h), h]
      norm_num [min_def]
    · rw [if_pos h]
  have h2 : (if a.open_issues ≠ 0 then
      min ((a.open_issues : ℚ) * (5/100)) (2/10) else 0)
      = min ((a.open_issues : ℚ) * (5/100)) (2/10) := by
    by_cases h : a.open_issues = 0
    · rw [if_neg (not_not.mpr h), h]
      norm_num [min_def]
    · rw [if_pos h]
  constructor
  · simp only [effectiveness_insight, effectiveness_specFormula, h1, h2]
  · simp only [effectiveness_insight, effectiveness_specFormula, h1, h2]

/-- The spec's effectiveness formula is clamped to [0.22, 0.98]. -/
theorem effectiveness_specFormula_bounds (reference_date : ℤ)
    (a : ActionSnapshot) :
    22/100 ≤ effectiveness_specFormula reference_date a ∧
    effectiveness_specFormula reference_date a ≤ 98/100 := by
  rw [effectiveness_specFormula]
  exact ⟨le_max_left _ _, max_le (by norm_num) (min_le_left _ _)⟩

/-- C5: each `effectiveness_scores` entry carries the spec's clamped score
(as a one-decimal percentage, hence within [22.0, 98.0]) and the
High/Medium/Low confidence derived from the unscaled score at thresholds
0.65 and 0.4. -/
theorem effectiveness_scores_contract (reference_date : ℤ)
    (actions : List ActionSnapshot) (a : ActionSnapshot) :
    effectiveness_scores reference_date actions
      = actions.map (effectiveness_insight reference_date) ∧
    (effectiveness_insight reference_date a).score
      = pyround1 (effectiveness_specFormula reference_date a * 100) ∧
    (effectiveness_insight reference_date a).confidence
      = (if effectiveness_specFormula reference_date a ≥ 65/100 then "High"
        else if effectiveness_specFormula reference_date a ≥ 4/10 then "Medium"
        else "Low") ∧
    ∀ e ∈ effectiveness_scores reference_date actions,
      22 ≤ e.score ∧ e.score ≤ 98 := by
  refine ⟨rfl, (effectiveness_insight_eq_spec reference_date a).1, ?_, ?_⟩
  · rw [(effectiveness_insight_eq_spec reference_date a).2,
      confidence_for_score]
    rfl
  · intro e he
    rw [effectiveness_scores] at he
    obtain ⟨b, hb, rfl⟩ := List.mem_map.mp he
    rw [(effectiveness_insight_eq_spec reference_date b).1]
    obtain ⟨hlo, hhi⟩ := effectiveness_specFormula_bounds reference_date b
    constructor
    · have hcast : ((220:ℤ):ℚ)
          ≤ 10 * (effectiveness_specFormula reference_date b * 100) := by
        push_cast
        linarith
      have hb2 := le_pyround1 hcast
      norm_num at hb2
      linarith
    · have hcast : 10 * (effectiveness_specFormula reference_date b * 100)
          ≤ ((980:ℤ):ℚ) := by
        push_cast
        linarith
      have hb2 := pyround1_le hcast
      norm_num at hb2
      linarith

/-- Witness for C5 at the sample snapshot. -/
theorem effectiveness_scores_contract_witness :
    22 ≤ (effectiveness_insight 0 sampleAction).score ∧
    (effectiveness_insight 0 sampleAction).score ≤ 98 :=
  (effectiveness_scores_contract 0 [sampleAction] sampleAction).2.2.2
    (effectiveness_insight 0 sampleAction) (by simp [effectiveness_scores])

/-- The clamp-then-round pattern of `rank_entry` keeps percentages within
[20, 100]. -/
theorem pyround1_clamped_bounds (z : ℚ) :
    20 ≤ pyround1 (max (2/10) (min 1 z) * 100) ∧
    pyround1 (max (2/10) (min 1 z) * 100) ≤ 100 := by
  have hlo := le_max_left (2/10 : ℚ) (min 1 z)
  have hhi : max (2/10 : ℚ) (min 1 z) ≤ 1 :=
    max_le (by norm_num) (min_le_left _ _)
  constructor
  · have hcast : ((200:ℤ):ℚ) ≤ 10 * (max (2/10) (min 1 z) * 100) := by
      push_cast
      linarith
    have h := le_pyround1 hcast
    norm_num at h
    linarith
  · have hcast : 10 * (max (2/10:ℚ) (min 1 z) * 100) ≤ ((1000:ℤ):ℚ) := by
      push_cast
      linarith
    have h := pyround1_le hcast
    norm_num at h
    linarith

/-- Every `rank_entry` score lies in [20.0, 100.0]. -/
theorem rank_entry_score_bounds (reference_date : ℤ) (a : ActionSnapshot) :
    20 ≤ (rank_entry reference_date a).priorityScore ∧
    (rank_entry reference_date a).priorityScore ≤ 100 := by
  simp only [rank_entry]
  exact pyround1_clamped_bounds _

/-- C6: `rank_priorities` output is sorted non-increasing by `priorityScore`,
the sort is stable (for every score value, the entries carrying it appear in
snapshot input order), and every `priorityScore` lies in [20.0, 100.0]. -/
theorem rank_priorities_contract (reference_date : ℤ)
    (actions : List ActionSnapshot) :
    List.Pairwise
      (fun x y : PriorityInsight => y.priorityScore ≤ x.priorityScore)
      (rank_priorities reference_date actions) ∧
    (∀ q : ℚ,
      (rank_priorities reference_date actions).filter
          (fun e => decide (e.priorityScore = q))
        = (actions.map (rank_entry reference_date)).filter
          (fun e => decide (e.priorityScore = q))) ∧
    ∀ e ∈ rank_priorities reference_date actions,
      20 ≤ e.priorityScore ∧ e.priorityScore ≤ 100 := by
  have htrans : ∀ (x y z : PriorityInsight),
      (fun x y : PriorityInsight =>
        decide (y.priorityScore ≤ x.priorityScore)) x y →
      (fun x y : PriorityInsight =>
        decide (y.priorityScore ≤ x.priorityScore)) y z →
      (fun x y : PriorityInsight =>
        decide (y.priorityScore ≤ x.priorityScore)) x z := by
    intro x y z h1 h2
    simp only [decide_eq_true_eq] at h1 h2 ⊢
    exact le_trans h2 h1
  have htot : ∀ (x y : PriorityInsight),
      ((fun x y : PriorityInsight =>
          decide (y.priorityScore ≤ x.priorityScore)) x y
        || (fun x y : PriorityInsight =>
          decide (y.priorityScore ≤ x.priorityScore)) y x) = true := by
    intro x y
    rcases le_total y.priorityScore x.priorityScore with h | h
    · simp [h]
    · simp [h]
  refine ⟨?_, ?_, ?_⟩
  · have hs := List.sorted_mergeSort htrans htot
      (actions.map (rank_entry reference_date))
    rw [rank_priorities]
    exact hs.imp (fun h => by simpa using h)
  · intro q
    rw [rank_priorities]
    set l := actions.map (rank_entry reference_date) with hl
    set p : PriorityInsight → Bool := fun e => decide (e.priorityScore = q)
      with hp
    have hpair : (l.filter p).Pairwise
        (fun x y : PriorityInsight =>
          decide (y.priorityScore ≤ x.priorityScore)) := by
      apply List.pairwise_of_forall_mem_list
      intro x hx y hy
      have hxq : x.priorityScore = q := by
        have := (List.mem_filter.mp hx).2
        rw [hp] at this
        simpa using this
      have hyq : y.priorityScore = q := by
        have := (List.mem_filter.mp hy).2
        rw [hp] at this
        simpa using this
      simp [hxq, hyq]
    have hsub : List.Sublist (l.filter p) (l.mergeSort
        (fun x y => decide (y.priorityScore ≤ x.priorityScore))) :=
      List.sublist_mergeSort htrans htot hpair (List.filter_sublist l)
    have hself : (l.filter p).filter p = l.filter p := by
      rw [List.filter_eq_self]
      intro b hb
      exact (List.mem_filter.mp hb).2
    have hsub2 : List.Sublist (l.filter p) ((l.mergeSort
        (fun x y => decide (y.priorityScore ≤ x.priorityScore))).filter p) := by
      have := List.Sublist.filter p hsub
      rwa [hself] at this
    have hperm : ((l.mergeSort
        (fun x y => decide (y.priorityScore ≤ x.priorityScore))).filter p).Perm
        (l.filter p) :=
      List.Perm.filter p (List.mergeSort_perm l _)
    exact (List.Sublist.eq_of_length hsub2 hperm.length_eq.symm).symm
  · intro e he
    rw [rank_priorities] at he
    have he2 : e ∈ actions.map (rank_entry reference_date) :=
      (List.mergeSort_perm _ _).mem_iff.mp he
    obtain ⟨b, hb, rfl⟩ := List.mem_map.mp he2
    exact rank_entry_score_bounds reference_date b

/-- Witness for C6 at a singleton snapshot list. -/
theorem rank_priorities_contract_witness :
    20 ≤ (rank_entry 0 sampleAction).priorityScore ∧
    (rank_entry 0 sampleAction).priorityScore ≤ 100 :=
  (rank_priorities_contract 0 [sampleAction]).2.2 (rank_entry 0 sampleAction)
    (by simp [rank_priorities, List.mergeSort_singleton])

end ComplyCA
